import Mathlib

/-!
Verification development for the Sawtooth dev-mode consensus module
(`sawtooth_validator/journal/consensus/dev_mode/dev_mode_consensus.py`).

The module has three components:
* `BlockPublisher` — decides when the local node may claim a block
  (`initialize_block`, `check_publish_block`, `finalize_block`);
* `BlockVerifier` — checks the block header carries the `b"Devmode"` marker
  (`verify_block`);
* `ForkResolver` — compares two fork heads (`compare_forks`), with an MD5
  based tie-break at equal heights (`hash_signer_pubkey`).

Strings (signer public keys, block ids, the consensus tag) are modelled at
the byte level as `List Nat` (each entry a byte value), matching Python's
`str.encode()` / `bytes` view of the data that actually feeds the hash and
the equality comparisons.  Wall-clock times and the sampled wait time are
modelled as rationals; the two wait-time settings are integers, as the code
reads them with `get_setting(..., int)`.  External effects (the settings
lookup, `time.time()`, and the underlying `random()` draw of
`random.uniform`) are passed to the functions as explicit arguments.
-/

namespace DevMode

/-! ### 32-bit arithmetic helpers (Python ints restricted mod 2^32) -/

def mask32 : Nat := 4294967295

def add32 (a b : Nat) : Nat := (a + b) % 4294967296

def not32 (x : Nat) : Nat := Nat.xor x mask32

/-- Left-rotate a 32-bit value by `s` (0 ≤ s < 32) bit positions. -/
def rotl32 (x s : Nat) : Nat :=
  Nat.lor ((x <<< s) % 4294967296) ((x % 4294967296) >>> (32 - s))

/-! ### MD5 (hashlib.md5), embedded over byte lists -/

/-- The 64 MD5 round constants `K[i] = floor(2^32 * |sin(i+1)|)`. -/
def md5K : List Nat :=
  [0xd76aa478, 0xe8c7b756, 0x242070db, 0xc1bdceee,
   0xf57c0faf, 0x4787c62a, 0xa8304613, 0xfd469501,
   0x698098d8, 0x8b44f7af, 0xffff5bb1, 0x895cd7be,
   0x6b901122, 0xfd987193, 0xa679438e, 0x49b40821,
   0xf61e2562, 0xc040b340, 0x265e5a51, 0xe9b6c7aa,
   0xd62f105d, 0x02441453, 0xd8a1e681, 0xe7d3fbc8,
   0x21e1cde6, 0xc33707d6, 0xf4d50d87, 0x455a14ed,
   0xa9e3e905, 0xfcefa3f8, 0x676f02d9, 0x8d2a4c8a,
   0xfffa3942, 0x8771f681, 0x6d9d6122, 0xfde5380c,
   0xa4beea44, 0x4bdecfa9, 0xf6bb4b60, 0xbebfbc70,
   0x289b7ec6, 0xeaa127fa, 0xd4ef3085, 0x04881d05,
   0xd9d4d039, 0xe6db99e5, 0x1fa27cf8, 0xc4ac5665,
   0xf4292244, 0x432aff97, 0xab9423a7, 0xfc93a039,
   0x655b59c3, 0x8f0ccc92, 0xffeff47d, 0x85845dd1,
   0x6fa87e4f, 0xfe2ce6e0, 0xa3014314, 0x4e0811a1,
   0xf7537e82, 0xbd3af235, 0x2ad7d2bb, 0xeb86d391]

/-- The per-round left-rotation amounts. -/
def md5s : List Nat :=
  [7, 12, 17, 22, 7, 12, 17, 22, 7, 12, 17, 22, 7, 12, 17, 22,
   5,  9, 14, 20, 5,  9, 14, 20, 5,  9, 14, 20, 5,  9, 14, 20,
   4, 11, 16, 23, 4, 11, 16, 23, 4, 11, 16, 23, 4, 11, 16, 23,
   6, 10, 15, 21, 6, 10, 15, 21, 6, 10, 15, 21, 6, 10, 15, 21]

/-- The nonlinear mixing function of round `i`. -/
def md5F (b c d i : Nat) : Nat :=
  if i < 16 then Nat.lor (Nat.land b c) (Nat.land (not32 b) d)
  else if i < 32 then Nat.lor (Nat.land d b) (Nat.land (not32 d) c)
  else if i < 48 then Nat.xor (Nat.xor b c) d
  else Nat.xor c (Nat.lor b (not32 d))

/-- The message-word index used in round `i`. -/
def md5g (i : Nat) : Nat :=
  if i < 16 then i
  else if i < 32 then (5 * i + 1) % 16
  else if i < 48 then (3 * i + 5) % 16
  else (7 * i) % 16

/-- One of the 64 MD5 operations, acting on the state `(a, b, c, d)`. -/
def md5step (M : List Nat) (st : Nat × Nat × Nat × Nat) (i : Nat) :
    Nat × Nat × Nat × Nat :=
  let (a, b, c, d) := st
  let f := add32 (add32 (md5F b c d i) a)
    (add32 (md5K.getD i 0) (M.getD (md5g i) 0))
  (d, add32 b (rotl32 f (md5s.getD i 0)), b, c)

/-- Process one 64-byte chunk: run the 64 operations and add the result to
the incoming state. -/
def md5chunk (st : Nat × Nat × Nat × Nat) (chunk : List Nat) :
    Nat × Nat × Nat × Nat :=
  let M := (List.range 16).map fun g =>
    chunk.getD (4 * g) 0 + 256 * chunk.getD (4 * g + 1) 0 +
    65536 * chunk.getD (4 * g + 2) 0 + 16777216 * chunk.getD (4 * g + 3) 0
  let r := (List.range 64).foldl (md5step M) st
  (add32 st.1 r.1, add32 st.2.1 r.2.1, add32 st.2.2.1 r.2.2.1,
   add32 st.2.2.2 r.2.2.2)

/-- MD5 padding: append `0x80`, zero bytes to 56 mod 64, then the original
bit length as 8 little-endian bytes. -/
def md5pad (msg : List Nat) : List Nat :=
  let len := msg.length
  let zeros := (120 - (len + 1) % 64) % 64
  let bitlen := (len * 8) % 18446744073709551616
  msg ++ [128] ++ List.replicate zeros 0 ++
    (List.range 8).map fun i => (bitlen >>> (8 * i)) % 256

/-- Split a (padded) message into 64-byte chunks; `fuel` bounds the number
of chunks (any `fuel ≥ l.length` is enough, since a nonempty list loses at
least one element per step). -/
def splitChunksAux : Nat → List Nat → List (List Nat)
  | _, [] => []
  | 0, _ :: _ => []
  | fuel + 1, a :: l =>
    (a :: l).take 64 :: splitChunksAux fuel ((a :: l).drop 64)

/-- Split a (padded) message into 64-byte chunks. -/
def splitChunks (l : List Nat) : List (List Nat) :=
  splitChunksAux l.length l

/-- The 16 digest bytes of MD5 of a byte-list message. -/
def md5digestBytes (msg : List Nat) : List Nat :=
  let st := (splitChunks (md5pad msg)).foldl md5chunk
    (0x67452301, 0xefcdab89, 0x98badcfe, 0x10325476)
  ((List.range 4).map fun i => (st.1 >>> (8 * i)) % 256) ++
  ((List.range 4).map fun i => (st.2.1 >>> (8 * i)) % 256) ++
  ((List.range 4).map fun i => (st.2.2.1 >>> (8 * i)) % 256) ++
  ((List.range 4).map fun i => (st.2.2.2 >>> (8 * i)) % 256)

/-- `int(m.hexdigest(), 16)`: the digest bytes, in output order, read as a
base-256 (equivalently, hex-string) unsigned integer. -/
def hexdigestInt (digest : List Nat) : Nat :=
  digest.foldl (fun acc b => acc * 256 + b) 0

/-! ### Data model -/

/-- The block-header fields this module reads or writes.  `consensus` is the
opaque consensus tag (bytes); `signer_pubkey` and `previous_block_id` are the
byte encodings of the corresponding strings. -/
structure BlockHeader where
  block_num : Nat
  signer_pubkey : List Nat
  previous_block_id : List Nat
  state_root_hash : List Nat
  consensus : List Nat
deriving DecidableEq, Repr

/-- A fork head as handed to `compare_forks`: a block wrapper exposing its
header; `block_num` delegates to the header's height. -/
structure BlockWrapper where
  header : BlockHeader
deriving DecidableEq, Repr

def BlockWrapper.block_num (b : BlockWrapper) : Nat := b.header.block_num

/-- The marker `b"Devmode"` that `initialize_block` stamps into the header
and `verify_block` tests for. -/
def devmodeTag : List Nat := [68, 101, 118, 109, 111, 100, 101]

/-! ### BlockPublisher -/

/-- The mutable fields of the `BlockPublisher` instance: the claim timer
(`start_time`, `wait_time`) and the three configuration values refreshed by
each `initialize_block`.  `valid_block_publishers` is `none` for Python's
`None` and `some l` for a list value. -/
structure BlockPublisher where
  start_time : ℚ
  wait_time : ℚ
  min_wait_time : Int
  max_wait_time : Int
  valid_block_publishers : Option (List (List Nat))
deriving DecidableEq, Repr

/-- The publisher state at construction: zero timer, zero wait bounds,
`valid_block_publishers = None`. -/
def BlockPublisher.init : BlockPublisher :=
  { start_time := 0, wait_time := 0, min_wait_time := 0, max_wait_time := 0,
    valid_block_publishers := none }

/-- `random.uniform(a, b) = a + (b - a) * random()` where `random()` draws
`u` with `0 ≤ u < 1`. -/
def uniform (a b u : ℚ) : ℚ := a + (b - a) * u

/-- `BlockPublisher.initialize_block`.  The external effects are passed in:
`min_setting`, `max_setting`, `publishers_setting` are the values returned
by the three `config_view.get_setting` calls (the accessor returns the
stored setting, or the supplied default when absent or malformed); `now` is
`time.time()`; `u` is the `random()` draw underlying `random.uniform`.  The
state-view resolution only feeds the settings lookup and has no other
effect.  Returns the updated publisher state, the header with its
`consensus` tag stamped, and the function's `True` result. -/
def BlockPublisher.initialize_block (p : BlockPublisher)
    (block_header : BlockHeader)
    (min_setting max_setting : Int)
    (publishers_setting : Option (List (List Nat)))
    (now u : ℚ) : BlockPublisher × BlockHeader × Bool :=
  let p1 : BlockPublisher :=
    { p with min_wait_time := min_setting, max_wait_time := max_setting,
             valid_block_publishers := publishers_setting }
  let header1 : BlockHeader := { block_header with consensus := devmodeTag }
  let p2 : BlockPublisher :=
    { p1 with start_time := now,
              wait_time := uniform p1.min_wait_time p1.max_wait_time u }
  (p2, header1, true)

/-- Python truthiness of `self._valid_block_publishers` combined with the
membership test: true when the setting is a non-empty list that does not
contain the header's signer key. -/
def publisherBlocked (pubs : Option (List (List Nat)))
    (signer : List Nat) : Bool :=
  match pubs with
  | none => false
  | some l => !l.isEmpty && !l.contains signer

/-- `BlockPublisher.check_publish_block` with `now` standing for
`time.time()`.  The Python function returns `True`, `False`, or falls off
the end returning `None`; the result is therefore an `Option Bool`, with
`none` for the implicit `None`. -/
def BlockPublisher.check_publish_block (p : BlockPublisher)
    (block_header : BlockHeader) (now : ℚ) : Option Bool :=
  if publisherBlocked p.valid_block_publishers block_header.signer_pubkey then
    some false
  else if p.min_wait_time = 0 then
    some true
  else if 0 < p.min_wait_time ∧ p.max_wait_time ≤ 0 then
    if p.start_time + (p.min_wait_time : ℚ) ≤ now then some true else none
  else if 0 < p.min_wait_time ∧ p.min_wait_time < p.max_wait_time then
    if p.start_time + p.wait_time ≤ now then some true else none
  else
    some false

/-- `BlockPublisher.finalize_block`: no state change, returns `True`. -/
def BlockPublisher.finalize_block (_p : BlockPublisher)
    (_block_header : BlockHeader) : Bool := true

/-! ### BlockVerifier -/

/-- `BlockVerifier.verify_block`: the block's consensus tag equals
`b"Devmode"`. -/
def verify_block (block_wrapper : BlockWrapper) : Bool :=
  block_wrapper.header.consensus == devmodeTag

/-! ### ForkResolver -/

/-- `ForkResolver.hash_signer_pubkey`: MD5 of the signer public key bytes
followed by the previous-block-id bytes (two `update` calls hash their
concatenation), with the hex digest read as an unsigned integer. -/
def hash_signer_pubkey (signer_pubkey header_signature : List Nat) : Nat :=
  hexdigestInt (md5digestBytes (signer_pubkey ++ header_signature))

/-- `ForkResolver.compare_forks`: longest chain wins; at equal heights the
head with the smaller tie-break hash of (signer key, previous block id)
wins. -/
def compare_forks (cur_fork_head new_fork_head : BlockWrapper) : Bool :=
  if new_fork_head.block_num = cur_fork_head.block_num then
    let cur_fork_hash := hash_signer_pubkey
      cur_fork_head.header.signer_pubkey
      cur_fork_head.header.previous_block_id
    let new_fork_hash := hash_signer_pubkey
      new_fork_head.header.signer_pubkey
      new_fork_head.header.previous_block_id
    decide (new_fork_hash < cur_fork_hash)
  else
    decide (new_fork_head.block_num > cur_fork_head.block_num)

/-! ### Helper lemmas -/

theorem decide_lt_swap {a b : Nat} (h : a ≠ b) :
    decide (a < b) = !decide (b < a) := by
  rcases Nat.lt_trichotomy a b with hl | he | hg
  · rw [decide_eq_true hl, decide_eq_false (Nat.lt_asymm hl), Bool.not_false]
  · exact absurd he h
  · rw [decide_eq_false (Nat.lt_asymm hg), decide_eq_true hg, Bool.not_true]

end DevMode

open DevMode

/-- C1: at equal heights, `compare_forks` is deterministic (identical inputs
give identical results), and swapping the two arguments yields the logically
negated result whenever the two MD5 tie-break integers
`md5(signer_pubkey ++ previous_block_id)` differ. -/
theorem compare_forks_equal_height_deterministic_antisymmetric
    (cur new : BlockWrapper)
    (heq : new.block_num = cur.block_num)
    (hne : hash_signer_pubkey new.header.signer_pubkey
        new.header.previous_block_id ≠
      hash_signer_pubkey cur.header.signer_pubkey
        cur.header.previous_block_id) :
    compare_forks cur new = compare_forks cur new ∧
    compare_forks new cur = !compare_forks cur new := by
  refine ⟨rfl, ?_⟩
  unfold compare_forks
  rw [if_pos heq, if_pos heq.symm]
  exact decide_lt_swap (fun e => hne e.symm)

set_option maxRecDepth 200000 in
/-- Witness for C1 at concrete heads: two headers at height 5 whose
(signer, previous id) byte pairs are `([0], [])` and `([], [])`. -/
theorem compare_forks_equal_height_deterministic_antisymmetric_witness :
    BlockWrapper.block_num ⟨⟨5, [0], [], [], []⟩⟩ =
      BlockWrapper.block_num ⟨⟨5, [], [], [], []⟩⟩ ∧
    hash_signer_pubkey [0] [] ≠ hash_signer_pubkey [] [] ∧
    (compare_forks ⟨⟨5, [], [], [], []⟩⟩ ⟨⟨5, [0], [], [], []⟩⟩ =
       compare_forks ⟨⟨5, [], [], [], []⟩⟩ ⟨⟨5, [0], [], [], []⟩⟩ ∧
     compare_forks ⟨⟨5, [0], [], [], []⟩⟩ ⟨⟨5, [], [], [], []⟩⟩ =
       !compare_forks ⟨⟨5, [], [], [], []⟩⟩ ⟨⟨5, [0], [], [], []⟩⟩) :=
  ⟨rfl, by decide,
    compare_forks_equal_height_deterministic_antisymmetric
      ⟨⟨5, [], [], [], []⟩⟩ ⟨⟨5, [0], [], [], []⟩⟩ rfl (by decide)⟩

/-- C2: at distinct heights, `compare_forks cur new` returns true iff
`new`'s height is strictly greater (longest-chain rule), and the result is
antisymmetric under swapping the arguments. -/
theorem compare_forks_longest_chain (cur new : BlockWrapper)
    (hne : new.block_num ≠ cur.block_num) :
    (compare_forks cur new = true ↔ cur.block_num < new.block_num) ∧
    compare_forks new cur = !compare_forks cur new := by
  unfold compare_forks
  rw [if_neg hne, if_neg (Ne.symm hne)]
  constructor
  · simp [gt_iff_lt]
  · exact decide_lt_swap hne

/-- Witness for C2 at concrete heads of heights 3 and 4. -/
theorem compare_forks_longest_chain_witness :
    BlockWrapper.block_num ⟨⟨4, [], [], [], []⟩⟩ ≠
      BlockWrapper.block_num ⟨⟨3, [], [], [], []⟩⟩ ∧
    ((compare_forks ⟨⟨3, [], [], [], []⟩⟩ ⟨⟨4, [], [], [], []⟩⟩ = true ↔
        BlockWrapper.block_num ⟨⟨3, [], [], [], []⟩⟩ <
          BlockWrapper.block_num ⟨⟨4, [], [], [], []⟩⟩) ∧
      compare_forks ⟨⟨4, [], [], [], []⟩⟩ ⟨⟨3, [], [], [], []⟩⟩ =
        !compare_forks ⟨⟨3, [], [], [], []⟩⟩ ⟨⟨4, [], [], [], []⟩⟩) :=
  ⟨by decide,
    compare_forks_longest_chain ⟨⟨3, [], [], [], []⟩⟩ ⟨⟨4, [], [], [], []⟩⟩
      (by decide)⟩

/-- C3: `verify_block` returns true exactly when the header's consensus tag
equals the fixed marker `b"Devmode"` that `initialize_block` writes, and
false for any other tag (including the empty tag); a header just stamped by
`initialize_block` is accepted. -/
theorem verify_block_iff_devmode_tag :
    ∀ bw : BlockWrapper,
      (verify_block bw = true ↔ bw.header.consensus = devmodeTag) ∧
      ∀ (p : BlockPublisher) (h : BlockHeader) (mn mx : Int)
        (pubs : Option (List (List Nat))) (now u : ℚ),
        verify_block ⟨(p.initialize_block h mn mx pubs now u).2.1⟩ = true := by
  intro bw
  constructor
  · simp [verify_block]
  · intro p h mn mx pubs now u
    simp [verify_block, BlockPublisher.initialize_block]

/-- C4 counterexample: with `minWaitTime = 5` and `maxWaitTime = 5`, a
publisher initialized at time 0 still answers `some false` at time 10,
which is at/after `startTime + 5`; the configuration does not behave as a
fixed 5-second delay — it never claims. -/
theorem check_publish_block_equal_bounds_counterexample :
    ((BlockPublisher.init.initialize_block ⟨0, [1], [], [], []⟩ 5 5 none
        0 0).1).check_publish_block
      (BlockPublisher.init.initialize_block ⟨0, [1], [], [], []⟩ 5 5 none
        0 0).2.1 10 = some false ∧
    (some false : Option Bool) ≠ some true := by
  refine ⟨?_, by decide⟩
  norm_num [BlockPublisher.init, BlockPublisher.initialize_block,
    BlockPublisher.check_publish_block, publisherBlocked]

/-- C4 (amended): with `minWaitTime = 5` and `maxWaitTime = 5` (equal
bounds) and no publisher restriction, `check_publish_block` returns false
at every time after `initialize_block` — the configuration falls into the
degenerate final branch and the node never claims. -/
theorem check_publish_block_equal_bounds_never_claims
    (p : BlockPublisher) (h : BlockHeader) (now u t : ℚ) :
    ((p.initialize_block h 5 5 none now u).1).check_publish_block
      (p.initialize_block h 5 5 none now u).2.1 t = some false := by
  norm_num [BlockPublisher.initialize_block,
    BlockPublisher.check_publish_block, publisherBlocked]

/-- C5: when `0 < maxWaitTime ≤ minWaitTime` and the signer passes the
publisher check, `check_publish_block` returns false at every time after
`initialize_block` — the node never claims under this configuration. -/
theorem check_publish_block_degenerate_max_never_claims
    (p : BlockPublisher) (h : BlockHeader) (mn mx : Int)
    (pubs : Option (List (List Nat))) (now u t : ℚ)
    (hmx : 0 < mx) (hle : mx ≤ mn)
    (hperm : publisherBlocked pubs h.signer_pubkey = false) :
    ((p.initialize_block h mn mx pubs now u).1).check_publish_block
      (p.initialize_block h mn mx pubs now u).2.1 t = some false := by
  have h1 : ¬ (mn = 0) := by omega
  have h2 : ¬ (0 < mn ∧ mx ≤ 0) := by omega
  have h3 : ¬ (0 < mn ∧ mn < mx) := by omega
  simp [BlockPublisher.initialize_block, BlockPublisher.check_publish_block,
    hperm, h1, h2, h3]

/-- Witness for C5 at `minWaitTime = 5`, `maxWaitTime = 3`, no publisher
restriction, checked at time 100 after initialization at time 0. -/
theorem check_publish_block_degenerate_max_never_claims_witness :
    (0 : Int) < 3 ∧ (3 : Int) ≤ 5 ∧
    publisherBlocked none [1] = false ∧
    ((BlockPublisher.init.initialize_block ⟨0, [1], [], [], []⟩ 5 3 none
        0 0).1).check_publish_block
      (BlockPublisher.init.initialize_block ⟨0, [1], [], [], []⟩ 5 3 none
        0 0).2.1 100 = some false :=
  ⟨by decide, by decide, rfl,
    check_publish_block_degenerate_max_never_claims BlockPublisher.init
      ⟨0, [1], [], [], []⟩ 5 3 none 0 0 100 (by decide) (by decide) rfl⟩

/-- C6 counterexample: with `minWaitTime = 1` and `maxWaitTime = 0`,
initialized at time 0 and checked at time 0 (strictly before
`startTime + 1`), `check_publish_block` returns `none` (Python `None`), not
the boolean `some false` the claim asserts. -/
theorem check_publish_block_fixed_delay_counterexample :
    ((BlockPublisher.init.initialize_block ⟨0, [1], [], [], []⟩ 1 0 none
        0 0).1).check_publish_block
      (BlockPublisher.init.initialize_block ⟨0, [1], [], [], []⟩ 1 0 none
        0 0).2.1 0 = none ∧
    (none : Option Bool) ≠ some false := by
  refine ⟨?_, by decide⟩
  norm_num [BlockPublisher.init, BlockPublisher.initialize_block,
    BlockPublisher.check_publish_block, publisherBlocked]

/-- C6 (amended): with `minWaitTime = M > 0`, `maxWaitTime ≤ 0`, and a
permitted signer, `check_publish_block` returns `none` (Python `None`, a
falsy non-boolean, not `False`) strictly before `startTime + M`, and
returns true at or after `startTime + M`. -/
theorem check_publish_block_fixed_delay
    (p : BlockPublisher) (h : BlockHeader) (mn mx : Int)
    (pubs : Option (List (List Nat))) (now u t : ℚ)
    (hmn : 0 < mn) (hmx : mx ≤ 0)
    (hperm : publisherBlocked pubs h.signer_pubkey = false) :
    (t < now + (mn : ℚ) →
      ((p.initialize_block h mn mx pubs now u).1).check_publish_block
        (p.initialize_block h mn mx pubs now u).2.1 t = none) ∧
    (now + (mn : ℚ) ≤ t →
      ((p.initialize_block h mn mx pubs now u).1).check_publish_block
        (p.initialize_block h mn mx pubs now u).2.1 t = some true) := by
  have h1 : ¬ (mn = 0) := by omega
  have h2 : 0 < mn ∧ mx ≤ 0 := ⟨hmn, hmx⟩
  constructor
  · intro ht
    simp [BlockPublisher.initialize_block,
      BlockPublisher.check_publish_block, hperm, h1, h2, not_le.mpr ht]
  · intro ht
    simp [BlockPublisher.initialize_block,
      BlockPublisher.check_publish_block, hperm, h1, h2, ht]

/-- Witness for C6 (amended) at `minWaitTime = 1`, `maxWaitTime = 0`,
initialization at time 0, checked at time 1 (the deadline): the second
conjunct yields `some true`. -/
theorem check_publish_block_fixed_delay_witness :
    (0 : Int) < 1 ∧ (0 : Int) ≤ 0 ∧ publisherBlocked none [1] = false ∧
    (((0 : ℚ) + ((1 : Int) : ℚ) ≤ 1) ∧
      ((BlockPublisher.init.initialize_block ⟨0, [1], [], [], []⟩ 1 0 none
          0 0).1).check_publish_block
        (BlockPublisher.init.initialize_block ⟨0, [1], [], [], []⟩ 1 0 none
          0 0).2.1 1 = some true) :=
  ⟨by decide, by decide, rfl, by simp,
    (check_publish_block_fixed_delay BlockPublisher.init
      ⟨0, [1], [], [], []⟩ 1 0 none 0 0 1 (by decide) (by decide) rfl).2
      (by simp)⟩

/-- C7: when `valid_block_publishers` is a non-empty list that does not
contain the header's signer key, `check_publish_block` returns false
regardless of the wait-time settings, the timer state, or the time of the
call. -/
theorem check_publish_block_unauthorized_signer
    (p : BlockPublisher) (h : BlockHeader) (now : ℚ) (l : List (List Nat))
    (hl : p.valid_block_publishers = some l) (hne : l ≠ [])
    (hmem : h.signer_pubkey ∉ l) :
    p.check_publish_block h now = some false := by
  have hb : publisherBlocked p.valid_block_publishers h.signer_pubkey
      = true := by
    rw [hl]
    simp [publisherBlocked, hne, hmem]
  simp [BlockPublisher.check_publish_block, hb]

/-- Witness for C7: publishers `[[1]]`, signer `[2]`, arbitrary timer
state. -/
theorem check_publish_block_unauthorized_signer_witness :
    (BlockPublisher.mk 0 0 0 7 (some [[1]])).valid_block_publishers
      = some [[1]] ∧
    ([[1]] : List (List Nat)) ≠ [] ∧
    ([2] : List Nat) ∉ ([[1]] : List (List Nat)) ∧
    (BlockPublisher.mk 0 0 0 7 (some [[1]])).check_publish_block
      ⟨0, [2], [], [], []⟩ 0 = some false :=
  ⟨rfl, by decide, by decide,
    check_publish_block_unauthorized_signer
      (BlockPublisher.mk 0 0 0 7 (some [[1]])) ⟨0, [2], [], [], []⟩ 0
      [[1]] rfl (by decide) (by decide)⟩

/-- C8 counterexample: a configuration with `minWaitTime = 0` whose
`valid_block_publishers` is `[[1]]` while the header's signer is `[2]`
returns `some false` immediately after `initialize_block`, not true. -/
theorem check_publish_block_min_zero_counterexample :
    ((BlockPublisher.init.initialize_block ⟨0, [2], [], [], []⟩ 0 0
        (some [[1]]) 0 0).1).check_publish_block
      (BlockPublisher.init.initialize_block ⟨0, [2], [], [], []⟩ 0 0
        (some [[1]]) 0 0).2.1 0 = some false ∧
    (some false : Option Bool) ≠ some true := by
  refine ⟨?_, by decide⟩
  norm_num [BlockPublisher.init, BlockPublisher.initialize_block,
    BlockPublisher.check_publish_block, publisherBlocked]

/-- C8 (amended): with `minWaitTime = 0` and a signer passing the publisher
check, `check_publish_block` returns true immediately (indeed at any time),
regardless of `maxWaitTime`. -/
theorem check_publish_block_min_zero_immediate
    (p : BlockPublisher) (h : BlockHeader) (mx : Int)
    (pubs : Option (List (List Nat))) (now u t : ℚ)
    (hperm : publisherBlocked pubs h.signer_pubkey = false) :
    ((p.initialize_block h 0 mx pubs now u).1).check_publish_block
      (p.initialize_block h 0 mx pubs now u).2.1 t = some true := by
  simp [BlockPublisher.initialize_block, BlockPublisher.check_publish_block,
    hperm]

/-- Witness for C8 (amended): `minWaitTime = 0`, `maxWaitTime = 9`, no
publisher restriction, checked at the initialization instant. -/
theorem check_publish_block_min_zero_immediate_witness :
    publisherBlocked none [1] = false ∧
    ((BlockPublisher.init.initialize_block ⟨0, [1], [], [], []⟩ 0 9 none
        0 0).1).check_publish_block
      (BlockPublisher.init.initialize_block ⟨0, [1], [], [], []⟩ 0 9 none
        0 0).2.1 0 = some true :=
  ⟨rfl,
    check_publish_block_min_zero_immediate BlockPublisher.init
      ⟨0, [1], [], [], []⟩ 9 none 0 0 0 rfl⟩

/-- C9: whenever `maxWaitTime > minWaitTime`, the wait time sampled by
`initialize_block` (`uniform` with a draw `0 ≤ u < 1`) lies in
`[minWaitTime, maxWaitTime]`; no other publisher operation writes the
timer, so the bound persists. -/
theorem initialize_block_wait_time_bounds
    (p : BlockPublisher) (h : BlockHeader) (mn mx : Int)
    (pubs : Option (List (List Nat))) (now u : ℚ)
    (hlt : mn < mx) (hu0 : 0 ≤ u) (hu1 : u < 1) :
    (mn : ℚ) ≤ ((p.initialize_block h mn mx pubs now u).1).wait_time ∧
    ((p.initialize_block h mn mx pubs now u).1).wait_time ≤ (mx : ℚ) := by
  have hq : (mn : ℚ) < (mx : ℚ) := by exact_mod_cast hlt
  simp only [BlockPublisher.initialize_block, uniform]
  constructor
  · nlinarith
  · nlinarith

/-- Witness for C9: bounds `minWaitTime = 1 < maxWaitTime = 3` with the
draw `u = 0`. -/
theorem initialize_block_wait_time_bounds_witness :
    (1 : Int) < 3 ∧ (0 : ℚ) ≤ 0 ∧ (0 : ℚ) < 1 ∧
    (((1 : Int) : ℚ) ≤
        ((BlockPublisher.init.initialize_block ⟨0, [1], [], [], []⟩ 1 3 none
          0 0).1).wait_time ∧
      ((BlockPublisher.init.initialize_block ⟨0, [1], [], [], []⟩ 1 3 none
          0 0).1).wait_time ≤ ((3 : Int) : ℚ)) :=
  ⟨by decide, by decide, by decide,
    initialize_block_wait_time_bounds BlockPublisher.init
      ⟨0, [1], [], [], []⟩ 1 3 none 0 0 (by decide) (by decide)
      (by decide)⟩

/-- C10: in the two timing branches (`minWaitTime > 0` with
`maxWaitTime ≤ 0`, and `minWaitTime > 0` with
`maxWaitTime > minWaitTime`), when the deadline has not yet been reached
`check_publish_block` returns `none` (Python falls off the function and
returns `None`), not `some false`: the result type is an optional boolean,
not a total boolean. -/
theorem check_publish_block_pending_returns_none
    (p : BlockPublisher) (h : BlockHeader) (t : ℚ)
    (hperm : publisherBlocked p.valid_block_publishers h.signer_pubkey
      = false)
    (hmn : 0 < p.min_wait_time)
    (hcase : (p.max_wait_time ≤ 0 ∧
        t < p.start_time + (p.min_wait_time : ℚ)) ∨
      (p.min_wait_time < p.max_wait_time ∧
        t < p.start_time + p.wait_time)) :
    p.check_publish_block h t = none := by
  have h1 : ¬ (p.min_wait_time = 0) := by omega
  rcases hcase with ⟨hmx, ht⟩ | ⟨hmx, ht⟩
  · have h2 : 0 < p.min_wait_time ∧ p.max_wait_time ≤ 0 := ⟨hmn, hmx⟩
    simp [BlockPublisher.check_publish_block, hperm, h1, h2, not_le.mpr ht]
  · have h2 : ¬ (0 < p.min_wait_time ∧ p.max_wait_time ≤ 0) := by omega
    have h3 : 0 < p.min_wait_time ∧ p.min_wait_time < p.max_wait_time :=
      ⟨hmn, hmx⟩
    simp [BlockPublisher.check_publish_block, hperm, h1, h2, h3,
      not_le.mpr ht]
    exact fun hmx0 => absurd hmx0 (not_le.mpr (lt_trans hmn hmx))

/-- Witness for C10: `minWaitTime = 1`, `maxWaitTime = 0`, timer started at
0, checked at time 0 (before the deadline at 1). -/
theorem check_publish_block_pending_returns_none_witness :
    publisherBlocked (BlockPublisher.mk 0 0 1 0 none).valid_block_publishers
      ([1] : List Nat) = false ∧
    (0 : Int) < (BlockPublisher.mk 0 0 1 0 none).min_wait_time ∧
    ((BlockPublisher.mk 0 0 1 0 none).max_wait_time ≤ 0 ∧
      (0 : ℚ) < (BlockPublisher.mk 0 0 1 0 none).start_time +
        ((BlockPublisher.mk 0 0 1 0 none).min_wait_time : ℚ)) ∧
    (BlockPublisher.mk 0 0 1 0 none).check_publish_block
      ⟨0, [1], [], [], []⟩ 0 = none :=
  ⟨rfl, by decide, ⟨by decide, by simp⟩,
    check_publish_block_pending_returns_none
      (BlockPublisher.mk 0 0 1 0 none) ⟨0, [1], [], [], []⟩ 0 rfl
      (by decide) (Or.inl ⟨by decide, by simp⟩)⟩
